import Mathlib

/-!
Verification development for the trading-strategy dataset cache and
pair-filtering layer.

The definitions below are a shallow embedding of
`tradingstrategy/transport/cache.py` and
`tradingstrategy/utils/token_filter.py`:

- the on-disk cache is an explicit `World` state (files with modification
  times, directories, and a log of download invocations);
- clock time is an explicit integer parameter (seconds), standing for
  `datetime.datetime.now()`; `datetime.timedelta` values are integers of
  seconds;
- pandas dataframes of trading pairs are lists of `DEXPair` records, and
  boolean-mask filtering is `List.filter`;
- Python `assert` failures and raised exceptions are `Except` errors.

Components the sources import from sibling modules that are not part of
the verified sources (the time-bucket enum, chain/exchange records, the
stablecoin symbol list, and the client-injected download function) are
modelled from the specification; each such definition carries a doc
comment starting with "Modelled from the spec:".
-/

/-! ### Filesystem and OS-path model -/

/-- A cached file on disk: its byte content and its modification time
(seconds). Returning a `FileEntry` from a lookup models returning an open
readable handle on that file. -/
structure FileEntry where
  content : List Nat
  mtime : Int
deriving DecidableEq

/-- One invocation of the injected download function, recorded so that
frame properties ("no network call") can be stated. -/
structure DownloadCall where
  fpath : String
  url : String
  params : List (String × String)
deriving DecidableEq

/-- The ambient state the transport acts on: regular files keyed by path,
existing directories, and the log of download invocations. -/
structure World where
  files : List (String × FileEntry)
  dirs : List String
  calls : List DownloadCall
deriving DecidableEq

/-- Association-list lookup of a file by exact path. -/
def fsLookup (files : List (String × FileEntry)) (p : String) : Option FileEntry :=
  match files.find? (fun kv => kv.1 == p) with
  | some kv => some kv.2
  | none => none

/-- Overwrite (or create) the file at path `p`. -/
def fsWrite (files : List (String × FileEntry)) (p : String) (e : FileEntry) :
    List (String × FileEntry) :=
  (p, e) :: files.filter (fun kv => !(kv.1 == p))

/-- POSIX test for an absolute path: the first character is a slash. -/
def isAbs (s : String) : Bool := s.data.head? == some '/'

/-- `os.path.join` for the two-argument uses in the source: when the
second component is absolute it replaces the first entirely (this is
exactly Python's documented behaviour, and it is what makes
`get_cached_item(path)` work when handed an already-resolved path). -/
def os_path_join (a b : String) : String :=
  if isAbs b then b else a ++ "/" ++ b

/-- The process working directory, an ambient of `os.path.abspath`. -/
def os_cwd : String := "/cwd"

/-- `os.path.abspath`: prefix the working directory onto relative paths. -/
def os_path_abspath (p : String) : String :=
  if isAbs p then p else os_cwd ++ "/" ++ p

/-- The user's home directory, an ambient of `os.path.expanduser`. -/
def os_home : String := "/home/user"

/-- Python `str.startswith`, stated over the character lists (equivalent
to `String.startsWith`; the `data` form lets proofs evaluate it). -/
def str_startswith (s pre : String) : Bool := pre.data.isPrefixOf s.data

/-- Python `str.upper` over the character list (ASCII case mapping, which
covers every symbol the source compares). -/
def str_upper (s : String) : String := { data := s.data.map Char.toUpper }

/-- Python `str.lower` over the character list. -/
def str_lower (s : String) : String := { data := s.data.map Char.toLower }

/-- `os.path.expanduser`: expand a leading tilde to the home directory. -/
def os_path_expanduser (p : String) : String :=
  if p.data.head? == some '~' then { data := os_home.data ++ p.data.drop 1 } else p

/-- `os.makedirs(p, exist_ok=True)`: record the directory as existing. -/
def os_makedirs (w : World) (p : String) : World :=
  { w with dirs := if w.dirs.contains p then w.dirs else p :: w.dirs }

/-- A dynamically typed Python value, as far as `shutil.rmtree` is
concerned: either a path string or a `datetime.timedelta`. -/
inductive PyVal where
  | str (s : String)
  | timedelta (seconds : Int)
deriving DecidableEq

/-- `shutil.rmtree`: on a string path it removes the directory tree if the
directory exists and raises `FileNotFoundError` otherwise; on a
non-path-like argument such as a `timedelta` it raises `TypeError` before
touching the filesystem. -/
def shutil_rmtree (w : World) (arg : PyVal) : Except String World :=
  match arg with
  | PyVal.timedelta _ => Except.error "TypeError"
  | PyVal.str p =>
    if w.dirs.contains p then
      Except.ok { w with
        files := w.files.filter (fun kv => !((p ++ "/").isPrefixOf kv.1)),
        dirs := w.dirs.filter (fun d => !(d == p) && !((p ++ "/").isPrefixOf d)) }
    else Except.error "FileNotFoundError"

/-! ### The transport -/

/-- Default production endpoint baked into `CachedHTTPTransport.__init__`. -/
def DEFAULT_ENDPOINT : String := "https://candlelightdinner.tradingstrategy.ai"

/-- Configuration state of `CachedHTTPTransport` after `__init__`.
`cache_period` is `datetime.timedelta` seconds. -/
structure CachedHTTPTransport where
  endpoint : String
  cache_period : Int
  cache_path : String
  api_key : Option String
deriving DecidableEq

/-- `CachedHTTPTransport.__init__`: falsy (absent or empty) endpoint and
cache path fall back to the defaults; the default cache path goes through
`os.path.expanduser`. The injected `download_func` is modelled separately
(see `download_func`). -/
def mkCachedHTTPTransport (endpoint : Option String) (cache_period : Int)
    (cache_path : Option String) (api_key : Option String) : CachedHTTPTransport :=
  { endpoint :=
      match endpoint with
      | some e => if e == "" then DEFAULT_ENDPOINT else e
      | none => DEFAULT_ENDPOINT
    cache_period := cache_period
    cache_path :=
      match cache_path with
      | some p => if p == "" then os_path_expanduser "~/.cache/trading-strategy" else p
      | none => os_path_expanduser "~/.cache/trading-strategy"
    api_key := api_key }

/-- `get_abs_cache_path`. -/
def CachedHTTPTransport.get_abs_cache_path (t : CachedHTTPTransport) : String :=
  os_path_abspath t.cache_path

/-- `get_cached_file_path`. -/
def CachedHTTPTransport.get_cached_file_path (t : CachedHTTPTransport) (fname : String) : String :=
  os_path_join t.get_abs_cache_path fname

/-- `get_cached_item`: `None` when the file is missing, `None` when
`now - mtime > cache_period` (file cache expired), otherwise the open
file. -/
def get_cached_item (w : World) (now : Int) (t : CachedHTTPTransport)
    (fname : String) : Option FileEntry :=
  let path := t.get_cached_file_path fname
  match fsLookup w.files path with
  | none => none
  | some f => if t.cache_period < now - f.mtime then none else some f

/-- `purge_cache`: the source passes `self.cache_period` — the timedelta,
not the cache path — to `shutil.rmtree`. -/
def purge_cache (w : World) (t : CachedHTTPTransport) : Except String World :=
  shutil_rmtree w (PyVal.timedelta t.cache_period)

/-- Modelled from the spec: the download function injected into
`CachedHTTPTransport.__init__` lives in the client module, which is not
among the verified sources. Per §4.2, `download(local_path, url, params)`
streams the response body to the local path and "must support
cancellation/interruption without corrupting the destination": a completed
download leaves the full body at the path with a fresh modification time,
while an interrupted one leaves the destination unchanged. Every
invocation is recorded in the call log. -/
def download_func (w : World) (now : Int) (fpath url : String)
    (params : List (String × String)) (body : List Nat) (interrupted : Bool) : World :=
  let w1 := { w with calls := w.calls ++ [{ fpath := fpath, url := url, params := params }] }
  if interrupted then w1
  else { w1 with files := fsWrite w1.files fpath { content := body, mtime := now } }

/-- `save_response`: create the cache root, build the URL and hand the
final destination path straight to the injected download function.
`body` and `interrupted` stand for the server's response bytes and whether
the streaming download was cut off. -/
def save_response (w : World) (now : Int) (t : CachedHTTPTransport)
    (fpath api_path : String) (params : List (String × String))
    (body : List Nat) (interrupted : Bool) : World :=
  let w1 := os_makedirs w t.get_abs_cache_path
  download_func w1 now fpath (t.endpoint ++ "/" ++ api_path) params body interrupted

/-! ### Session response hook and JSON requests -/

/-- An HTTP response as seen by the session's response hook. -/
structure HTTPResponse where
  status_code : Nat
  text : String
deriving DecidableEq

/-- The typed error raised at the transport boundary. -/
structure APIError where
  message : String
deriving DecidableEq

/-- The `exception_hook` closure installed by `create_requests_client`:
raise `APIError(response.text)` whenever `response.status_code >= 400`. -/
def exception_hook (response : HTTPResponse) : Except APIError HTTPResponse :=
  if 400 ≤ response.status_code then Except.error { message := response.text }
  else Except.ok response

/-- A response travelling through the session created by
`create_requests_client`: the hook is installed on every response of the
session, so receiving `response` yields either the response or the raised
`APIError`. -/
def session_response (_t : CachedHTTPTransport) (response : HTTPResponse) :
    Except APIError HTTPResponse :=
  exception_hook response

/-- `get_json_response`: issue a GET through the session and return the
parsed body (the raw body text stands in for the parsed JSON). -/
def get_json_response (t : CachedHTTPTransport) (_api_path : String)
    (_params : List (String × String)) (response : HTTPResponse) :
    Except APIError String :=
  match session_response t response with
  | Except.error e => Except.error e
  | Except.ok r => Except.ok r.text

/-- `post_json_response`: as `get_json_response`, over POST. -/
def post_json_response (t : CachedHTTPTransport) (_api_path : String)
    (_params : List (String × String)) (response : HTTPResponse) :
    Except APIError String :=
  match session_response t response with
  | Except.error e => Except.error e
  | Except.ok r => Except.ok r.text

/-! ### The dataset fetchers -/

/-- Modelled from the spec: the time-bucket granularity enum (§3, glossary:
aggregation windows from 1 minute to 30 days) lives in a module outside
the verified sources; only its wire token `value` (e.g. `"1d"`) is used by
the transport. -/
structure TimeBucket where
  value : String
deriving DecidableEq

/-- `fetch_pair_universe`: cache hit returns the cached file; otherwise
download into the resolved path and re-read the cache. -/
def fetch_pair_universe (w : World) (now : Int) (t : CachedHTTPTransport)
    (body : List Nat) (interrupted : Bool) : World × Option FileEntry :=
  let fname := "pair-universe.parquet"
  match get_cached_item w now t fname with
  | some cached => (w, some cached)
  | none =>
    let path := t.get_cached_file_path fname
    let w1 := save_response w now t path "pair-universe" [] body interrupted
    (w1, get_cached_item w1 now t fname)

/-- `fetch_exchange_universe`. -/
def fetch_exchange_universe (w : World) (now : Int) (t : CachedHTTPTransport)
    (body : List Nat) (interrupted : Bool) : World × Option FileEntry :=
  let fname := "exchange-universe.json"
  match get_cached_item w now t fname with
  | some cached => (w, some cached)
  | none =>
    let path := t.get_cached_file_path fname
    let w1 := save_response w now t path "exchange-universe" [] body interrupted
    (w1, get_cached_item w1 now t fname)

/-- `fetch_candles_all_time`: note that the final re-read passes `path`
(the already-resolved absolute path) where the other fetchers pass
`fname`; `os.path.join` discards its first argument for an absolute second
argument, so the same file is read back. -/
def fetch_candles_all_time (w : World) (now : Int) (t : CachedHTTPTransport)
    (bucket : TimeBucket) (body : List Nat) (interrupted : Bool) :
    World × Option FileEntry :=
  let fname := "candles-" ++ bucket.value ++ ".parquet"
  match get_cached_item w now t fname with
  | some cached => (w, some cached)
  | none =>
    let path := t.get_cached_file_path fname
    let w1 := save_response w now t path "candles-all" [("bucket", bucket.value)] body interrupted
    (w1, get_cached_item w1 now t path)

/-- `fetch_liquidity_all_time`: same shape as `fetch_candles_all_time`. -/
def fetch_liquidity_all_time (w : World) (now : Int) (t : CachedHTTPTransport)
    (bucket : TimeBucket) (body : List Nat) (interrupted : Bool) :
    World × Option FileEntry :=
  let fname := "liquidity-samples-" ++ bucket.value ++ ".parquet"
  match get_cached_item w now t fname with
  | some cached => (w, some cached)
  | none =>
    let path := t.get_cached_file_path fname
    let w1 := save_response w now t path "liquidity-all" [("bucket", bucket.value)] body interrupted
    (w1, get_cached_item w1 now t path)

/-! ### Trading-pair records and filters (`utils/token_filter.py`) -/

/-- One row of the trading-pair dataframe: the columns the filters read. -/
structure DEXPair where
  pair_id : Int
  chain_id : Int
  exchange_id : Int
  exchange_slug : String
  token0_symbol : String
  token1_symbol : String
  token0_address : String
  token1_address : String
  base_token_symbol : String
  quote_token_symbol : String
  fee : Int
deriving DecidableEq

/-- Modelled from the spec: `ChainId` comes from a module outside the
verified sources; §3 needs only the numeric chain identifier used for
equality filtering and the slug used in diagnostics. -/
structure ChainId where
  value : Int
  slug : String
deriving DecidableEq

/-- `ChainId.get_slug`, used only in the diagnostic print. -/
def ChainId.get_slug (c : ChainId) : String := c.slug

/-- Modelled from the spec: `Exchange` records come from a module outside
the verified sources; the filters read only the primary key. -/
structure Exchange where
  exchange_id : Int
deriving DecidableEq

/-- `DEFAULT_GOOD_QUOTE_TOKENS` from the source. -/
def DEFAULT_GOOD_QUOTE_TOKENS : List String :=
  ["USDC", "USDT", "WETH", "WMATIC", "WAVAX", "WBNB", "WARB"]

/-- `DERIVATIVE_TOKEN_PREFIXES` from the source. -/
def DERIVATIVE_TOKEN_PREFIXES : List String :=
  ["wst", "os", "3Crv", "gOHM", "st", "bl", "ETH2x"]

/-- `REBASE_TOKENS` from the source. -/
def REBASE_TOKENS : List String := ["OHM", "KLIMA"]

/-- Modelled from the spec: `ALL_STABLECOIN_LIKE` is imported from
`tradingstrategy.stablecoin`, which is outside the verified sources; per
§3 and the glossary it is the set of recognised fiat-pegged stable asset
symbols (the testable properties name USDC and USDT as members). -/
def ALL_STABLECOIN_LIKE : List String :=
  ["USDC", "USDT", "BUSD", "DAI", "TUSD", "USDP", "FRAX", "LUSD", "GUSD", "sUSD", "MIM", "EURS"]

/-- `is_derivative`: the symbol starts with a known derivative prefix. -/
def is_derivative (token_symbol : String) : Bool :=
  DERIVATIVE_TOKEN_PREFIXES.any (fun p => str_startswith token_symbol p)

/-- `is_rebase`: the upper-cased symbol is a known rebasing token. -/
def is_rebase (token_symbol : String) : Bool :=
  REBASE_TOKENS.contains (str_upper token_symbol)

/-- `StablecoinFilteringMode`. -/
inductive StablecoinFilteringMode where
  | only_stablecoin_pairs
  | only_volatile_pairs
  | all_pairs
deriving DecidableEq

/-- `filter_for_stablecoins`: keep stable-stable pairs, drop them, or pass
the table through, depending on the mode. -/
def filter_for_stablecoins (pairs : List DEXPair) (mode : StablecoinFilteringMode) :
    List DEXPair :=
  match mode with
  | StablecoinFilteringMode.all_pairs => pairs
  | StablecoinFilteringMode.only_stablecoin_pairs =>
    pairs.filter (fun r =>
      ALL_STABLECOIN_LIKE.contains r.token0_symbol && ALL_STABLECOIN_LIKE.contains r.token1_symbol)
  | StablecoinFilteringMode.only_volatile_pairs =>
    pairs.filter (fun r =>
      !(ALL_STABLECOIN_LIKE.contains r.token0_symbol && ALL_STABLECOIN_LIKE.contains r.token1_symbol))

/-- `filter_for_derivatives`: with `derivatives = false` (the default)
keep rows where neither leg is a derivative symbol; with `true` keep rows
where at least one leg is. -/
def filter_for_derivatives (pairs : List DEXPair) (derivatives : Bool) : List DEXPair :=
  pairs.filter (fun r =>
    if derivatives then is_derivative r.token0_symbol || is_derivative r.token1_symbol
    else !is_derivative r.token0_symbol && !is_derivative r.token1_symbol)

/-- `filter_for_rebases`: same shape for rebasing tokens. -/
def filter_for_rebases (pairs : List DEXPair) (rebase : Bool) : List DEXPair :=
  pairs.filter (fun r =>
    if rebase then is_rebase r.token0_symbol || is_rebase r.token1_symbol
    else !is_rebase r.token0_symbol && !is_rebase r.token1_symbol)

/-- `filter_for_chain`: rows whose `chain_id` column equals the target. -/
def filter_for_chain (pairs : List DEXPair) (chain_id : ChainId) : List DEXPair :=
  pairs.filter (fun r => r.chain_id == chain_id.value)

/-- `filter_for_exchanges`: rows whose `exchange_id` is among the given
`Exchange` records' primary keys. -/
def filter_for_exchanges (pairs : List DEXPair) (exchanges : List Exchange) : List DEXPair :=
  let exchange_ids := exchanges.map (fun e => e.exchange_id)
  pairs.filter (fun r => exchange_ids.contains r.exchange_id)

/-- `filter_for_exchange_ids`: rows whose `exchange_id` is in the set. -/
def filter_for_exchange_ids (pairs : List DEXPair) (exchange_ids : List Int) : List DEXPair :=
  pairs.filter (fun r => exchange_ids.contains r.exchange_id)

/-- `filter_for_blacklisted_tokens`: lower-case the deny-set, then drop
rows where any of the four symbol/address columns (symbols compared
lower-cased) hits the deny-set. -/
def filter_for_blacklisted_tokens (pairs : List DEXPair) (blacklisted_tokens : List String) :
    List DEXPair :=
  let bl := blacklisted_tokens.map (fun token => str_lower token)
  pairs.filter (fun r =>
    !(bl.contains r.token0_address || bl.contains (str_lower r.token0_symbol) ||
      bl.contains r.token1_address || bl.contains (str_lower r.token1_symbol)))

/-- `has_non_ascii` from `filter_for_nonascii_tokens`. -/
def has_non_ascii (text : String) : Bool :=
  text.data.any (fun c => 127 < c.toNat)

/-- `filter_for_nonascii_tokens`: drop rows where either leg's symbol has
a character beyond ASCII. -/
def filter_for_nonascii_tokens (pairs : List DEXPair) : List DEXPair :=
  pairs.filter (fun r => !(has_non_ascii r.token0_symbol || has_non_ascii r.token1_symbol))

/-- Python `int()` truncation of a rational. The only caller guards
`0 < fee < 1`, where truncation agrees with every integer-division
convention, so plain `Int` division of numerator by denominator is
faithful. -/
def python_int (q : Rat) : Int := q.num / (q.den : Int)

/-- `filter_for_trading_fee`: assert `0 < fee < 1`, convert the fractional
fee to integer basis points, and keep exactly the rows whose `fee` column
equals that value. -/
def filter_for_trading_fee (pairs : List DEXPair) (fee : Rat) :
    Except String (List DEXPair) :=
  if 0 < fee ∧ fee < 1 then
    let int_fee : Int := python_int (fee * 10000)
    Except.ok (pairs.filter (fun r => r.fee == int_fee))
  else Except.error "AssertionError"

/-- The fee step of `filter_pairs_default` (line 540): the boolean mask is
computed on the original `pairs_df` and aligned to the current table's row
labels by `.loc`; since every current row is a row of `pairs_df` carrying
the same `fee` value, this equals filtering the current rows by their own
fee, inclusively. -/
def fee_step (tbl : List DEXPair) (maxBps : Int) : List DEXPair :=
  tbl.filter (fun r => decide (r.fee ≤ maxBps))

/-- Python truthiness of an optional integer: `None` and `0` are falsy. -/
def truthy_int (o : Option Int) : Bool :=
  match o with
  | none => false
  | some n => n != 0

/-- Python truthiness of an optional collection: `None` and the empty
collection are falsy. -/
def truthy_list {α : Type} (o : Option (List α)) : Bool :=
  match o with
  | none => false
  | some l => !l.isEmpty

/-- `filter_pairs_default`: the composed default pipeline. The second
component of the result is the sequence of `verbose_print` invocations
(label and row count), in order. -/
def filter_pairs_default (pairs_df : List DEXPair)
    (max_trading_pair_fee_bps : Option Int)
    (blacklisted_token_symbols : Option (List String))
    (good_quote_tokes : List String)
    (exchanges : Option (List Exchange))
    (exchange_ids : Option (List Int))
    (pair_ids_in_candles : Option (List Int))
    (chain_id : Option ChainId) : List DEXPair × List (String × Nat) :=
  let log0 := [("Pairs in the input dataset", pairs_df.length)]
  let s1l :=
    match chain_id with
    | some c =>
      let tbl := filter_for_chain pairs_df c
      (tbl, log0 ++ [("Pairs on chain " ++ c.get_slug, tbl.length)])
    | none => (pairs_df, log0)
  let s2l :=
    if truthy_int max_trading_pair_fee_bps then
      let tbl := fee_step s1l.1 (max_trading_pair_fee_bps.getD 0)
      (tbl, s1l.2 ++ [("Pairs having a good fee", tbl.length)])
    else s1l
  let s3l :=
    if truthy_list pair_ids_in_candles then
      let pic := pair_ids_in_candles.getD []
      let tbl := s2l.1.filter (fun r => pic.contains r.pair_id)
      (tbl, s2l.2 ++ [("Pairs with candle data", tbl.length)])
    else s2l
  let s4l :=
    if truthy_list exchanges then
      let tbl := filter_for_exchanges s3l.1 (exchanges.getD [])
      (tbl, s3l.2 ++ [("Pairs matching exchange", tbl.length)])
    else s3l
  let s5l :=
    if truthy_list exchange_ids then
      let tbl := filter_for_exchange_ids s4l.1 (exchange_ids.getD [])
      (tbl, s4l.2 ++ [("Pairs matching exchange", tbl.length)])
    else s4l
  let s6 := filter_for_stablecoins s5l.1 StablecoinFilteringMode.only_volatile_pairs
  let log6 := s5l.2 ++ [("Pairs that are not stable-stable", s6.length)]
  let s7 := filter_for_derivatives s6 false
  let log7 := log6 ++ [("Pairs that are not derivative tokens", s7.length)]
  let s8 := filter_for_rebases s7 false
  let log8 := log7 ++ [("Pairs that are not rebase tokens", s8.length)]
  let s9 := s8.filter (fun r => good_quote_tokes.contains r.quote_token_symbol)
  let log9 := log8 ++ [("Pairs with good quote token", s9.length)]
  let s10l :=
    if truthy_list blacklisted_token_symbols then
      let tbl := filter_for_blacklisted_tokens s9 (blacklisted_token_symbols.getD [])
      (tbl, log9 ++ [("Pairs without blacklisted base token", tbl.length)])
    else (s9, log9)
  let s11 := filter_for_nonascii_tokens s10l.1
  let log11 := s10l.2 ++ [("Pairs with clean ASCII token name", s11.length)]
  (s11, log11)

/-! ### Helper lemmas -/

theorem fsLookup_fsWrite (files : List (String × FileEntry)) (p : String) (e : FileEntry) :
    fsLookup (fsWrite files p e) p = some e := by
  simp [fsLookup, fsWrite, List.find?_cons]

theorem isAbs_append (a b : String) (h : isAbs a = true) : isAbs (a ++ b) = true := by
  simp only [isAbs, beq_iff_eq, String.data_append] at h ⊢
  cases hd : a.data with
  | nil => rw [hd] at h; simp at h
  | cons c l => rw [hd] at h; simp at h; simp [h]

theorem isAbs_abspath (p : String) : isAbs (os_path_abspath p) = true := by
  unfold os_path_abspath
  by_cases h : isAbs p = true
  · simp [h]
  · simp [h]
    exact isAbs_append _ _ (isAbs_append _ _ (by decide))

theorem isAbs_cached_file_path (t : CachedHTTPTransport) (fname : String) :
    isAbs (t.get_cached_file_path fname) = true := by
  unfold CachedHTTPTransport.get_cached_file_path os_path_join
      CachedHTTPTransport.get_abs_cache_path
  by_cases h : isAbs fname = true
  · simp [h]
  · simp [h]
    exact isAbs_append _ _ (isAbs_append _ _ (isAbs_abspath _))

theorem get_cached_item_of_abs (w : World) (now : Int) (t : CachedHTTPTransport)
    (p : String) (h : isAbs p = true) :
    get_cached_item w now t p =
      match fsLookup w.files p with
      | none => none
      | some f => if t.cache_period < now - f.mtime then none else some f := by
  unfold get_cached_item CachedHTTPTransport.get_cached_file_path os_path_join
  simp [h]

/-! ### Claim C1 -/

/-- C1: the claim says `purge_cache` deletes all cached content under the
configured cache root and raises only when the root does not exist. The
code instead passes `self.cache_period` — a `datetime.timedelta`, not the
cache path — to `shutil.rmtree`, so every call raises `TypeError` and no
cached file is ever deleted, whether or not the cache root exists. This
theorem evaluates the code on every state and transport instance,
exhibiting the divergence. -/
theorem purge_cache_always_type_error (w : World) (t : CachedHTTPTransport) :
    purge_cache w t = Except.error "TypeError" := rfl

/-! ### Claim C2 -/

/-- Transport with a 5-second cache period and root `/cache`. -/
def tC2 : CachedHTTPTransport :=
  { endpoint := DEFAULT_ENDPOINT, cache_period := 5, cache_path := "/cache", api_key := none }

/-- A cache entry written at time T = 0. -/
def eC2 : FileEntry := { content := [1, 2, 3], mtime := 0 }

/-- A world holding that entry at the resolved path of the pair universe. -/
def wC2 : World :=
  { files := [("/cache/pair-universe.parquet", eC2)], dirs := ["/cache"], calls := [] }

/-- C2 counterexample: the claim says a cache entry written at time T with
period P is EXPIRED (no content) at every query time ≥ T + P, including
exactly T + P. With T = 0 and P = 5, the lookup at query time exactly
T + P = 5 still returns the content, because the code expires only when
`now - mtime > cache_period`, strictly. -/
theorem get_cached_item_valid_at_exact_deadline :
    get_cached_item wC2 5 tC2 "pair-universe.parquet" = some eC2 := by decide

/-- C2 (amended): for every dataset identity, a cache entry written at
time T is reported VALID (content returned) at every query time in
[T, T + period] — the boundary T + period included — and EXPIRED (no
content) at every query time strictly greater than T + period. -/
theorem get_cached_item_freshness_window (w : World) (now : Int)
    (t : CachedHTTPTransport) (fname : String) (f : FileEntry)
    (h : fsLookup w.files (t.get_cached_file_path fname) = some f) :
    (now - f.mtime ≤ t.cache_period → get_cached_item w now t fname = some f) ∧
    (t.cache_period < now - f.mtime → get_cached_item w now t fname = none) := by
  constructor <;> intro h2
  · simp [get_cached_item, h, not_lt.mpr h2]
  · simp [get_cached_item, h, h2]

/-- C2 witness: the amended freshness window evaluated on the concrete
entry, inside the window at query time 3 and beyond it at query time 6. -/
theorem get_cached_item_freshness_window_witness :
    fsLookup wC2.files (tC2.get_cached_file_path "pair-universe.parquet") = some eC2 ∧
    (3 : Int) - eC2.mtime ≤ tC2.cache_period ∧
    get_cached_item wC2 3 tC2 "pair-universe.parquet" = some eC2 ∧
    tC2.cache_period < (6 : Int) - eC2.mtime ∧
    get_cached_item wC2 6 tC2 "pair-universe.parquet" = none :=
  ⟨by decide, by decide,
   (get_cached_item_freshness_window wC2 3 tC2 "pair-universe.parquet" eC2 (by decide)).1
     (by decide),
   by decide,
   (get_cached_item_freshness_window wC2 6 tC2 "pair-universe.parquet" eC2 (by decide)).2
     (by decide)⟩

/-! ### Claim C3 -/

/-- C3: storing a downloaded dataset is atomic with respect to
partial-download failure. `save_response` hands the resolved final path to
the injected download function, which per the spec's §4.2 contract leaves
the destination unchanged when interrupted (see `download_func`, modelled
from the spec because the client module is not among the verified
sources). Consequently an interrupted download changes no cache file, and
every subsequent lookup of the dataset reports exactly what it reported
before: the prior state is preserved and no partial file is promoted. -/
theorem save_response_interrupted_preserves_cache (w : World) (now now2 : Int)
    (t : CachedHTTPTransport) (fname api_path : String)
    (params : List (String × String)) (body : List Nat) :
    (save_response w now t (t.get_cached_file_path fname) api_path params body true).files
        = w.files ∧
    get_cached_item (save_response w now t (t.get_cached_file_path fname) api_path params body true)
        now2 t fname = get_cached_item w now2 t fname :=
  ⟨rfl, rfl⟩

/-! ### Claim C4 -/

/-- C4: every response travelling through the session raises an `APIError`
carrying the raw response body text exactly when the status is ≥ 400, for
GET and POST alike; in particular a 404 with body "not found" surfaces as
an `APIError` whose message contains "not found". -/
theorem transport_error_translation (t : CachedHTTPTransport) (api_path : String)
    (params : List (String × String)) (r : HTTPResponse) :
    (400 ≤ r.status_code →
      get_json_response t api_path params r = Except.error { message := r.text } ∧
      post_json_response t api_path params r = Except.error { message := r.text }) ∧
    (r.status_code < 400 →
      get_json_response t api_path params r = Except.ok r.text ∧
      post_json_response t api_path params r = Except.ok r.text) ∧
    (r.status_code = 404 → r.text = "not found" →
      ∃ e : APIError, get_json_response t api_path params r = Except.error e ∧
        List.IsInfix "not found".data e.message.data) := by
  refine ⟨fun h => ?_, fun h => ?_, fun h1 h2 => ?_⟩
  · constructor <;>
      simp [get_json_response, post_json_response, session_response, exception_hook, h]
  · have h3 : ¬ 400 ≤ r.status_code := not_le.mpr h
    constructor <;>
      simp [get_json_response, post_json_response, session_response, exception_hook, h3]
  · have h3 : 400 ≤ r.status_code := by omega
    refine ⟨{ message := r.text }, ?_, ?_⟩
    · simp [get_json_response, session_response, exception_hook, h3]
    · exact h2 ▸ List.infix_refl _

/-- A transport built through `__init__` with all defaults. -/
def t404 : CachedHTTPTransport := mkCachedHTTPTransport none 259200 none none

/-- C4 witness: the substitute 404 response with body "not found". -/
theorem transport_error_translation_witness :
    400 ≤ (404 : Nat) ∧
    get_json_response t404 "pair-universe" [] { status_code := 404, text := "not found" }
      = Except.error { message := "not found" } :=
  ⟨by decide,
   ((transport_error_translation t404 "pair-universe" []
       { status_code := 404, text := "not found" }).1 (by decide)).1⟩

/-! ### Claims C5 and C6 -/

theorem save_response_completed (w : World) (now : Int) (t : CachedHTTPTransport)
    (fpath api_path : String) (params : List (String × String)) (body : List Nat) :
    (save_response w now t fpath api_path params body false).calls
        = w.calls ++ [{ fpath := fpath, url := t.endpoint ++ "/" ++ api_path, params := params }] ∧
    fsLookup (save_response w now t fpath api_path params body false).files fpath
        = some { content := body, mtime := now } :=
  ⟨rfl, fsLookup_fsWrite _ _ _⟩

theorem cached_file_path_of_abs (t : CachedHTTPTransport) (p : String)
    (h : isAbs p = true) : t.get_cached_file_path p = p := by
  unfold CachedHTTPTransport.get_cached_file_path os_path_join
  simp [h]

theorem get_cached_item_fresh_fname (w : World) (now : Int) (t : CachedHTTPTransport)
    (fname : String) (e : FileEntry) (hper : 0 ≤ t.cache_period)
    (hfind : fsLookup w.files (t.get_cached_file_path fname) = some e)
    (hm : e.mtime = now) : get_cached_item w now t fname = some e := by
  simp only [get_cached_item, hfind]
  rw [hm]
  simp [not_lt.mpr hper]

/-- C5: a VALID cache entry short-circuits every fetcher: the returned
world is the input world unchanged — in particular the download-call log
is unchanged, so the transport's download function is invoked zero
times — and the cached content is returned, for each of the four dataset
kinds. -/
theorem fetch_no_download_on_valid_cache (w : World) (now : Int)
    (t : CachedHTTPTransport) (body : List Nat) (interrupted : Bool)
    (bucket : TimeBucket) (f1 f2 f3 f4 : FileEntry) :
    (get_cached_item w now t "pair-universe.parquet" = some f1 →
      fetch_pair_universe w now t body interrupted = (w, some f1)) ∧
    (get_cached_item w now t "exchange-universe.json" = some f2 →
      fetch_exchange_universe w now t body interrupted = (w, some f2)) ∧
    (get_cached_item w now t ("candles-" ++ bucket.value ++ ".parquet") = some f3 →
      fetch_candles_all_time w now t bucket body interrupted = (w, some f3)) ∧
    (get_cached_item w now t ("liquidity-samples-" ++ bucket.value ++ ".parquet") = some f4 →
      fetch_liquidity_all_time w now t bucket body interrupted = (w, some f4)) := by
  refine ⟨fun h => ?_, fun h => ?_, fun h => ?_, fun h => ?_⟩
  · simp [fetch_pair_universe, h]
  · simp [fetch_exchange_universe, h]
  · simp [fetch_candles_all_time, h]
  · simp [fetch_liquidity_all_time, h]

/-- Transport for the C5 witness: root `/c`, period 10 seconds. -/
def tC5 : CachedHTTPTransport :=
  { endpoint := DEFAULT_ENDPOINT, cache_period := 10, cache_path := "/c", api_key := none }

/-- A valid entry written at time 0. -/
def eC5 : FileEntry := { content := [7], mtime := 0 }

/-- A world with valid entries for all four dataset kinds. -/
def wC5 : World :=
  { files := [("/c/pair-universe.parquet", eC5), ("/c/exchange-universe.json", eC5),
              ("/c/candles-1d.parquet", eC5), ("/c/liquidity-samples-1d.parquet", eC5)],
    dirs := ["/c"], calls := [] }

/-- C5 witness: all four fetchers, on a world whose cache is VALID at
query time 1, return the cached entry with the world (and so the
download-call log) unchanged. -/
theorem fetch_no_download_on_valid_cache_witness :
    get_cached_item wC5 1 tC5 "pair-universe.parquet" = some eC5 ∧
    fetch_pair_universe wC5 1 tC5 [] false = (wC5, some eC5) ∧
    fetch_exchange_universe wC5 1 tC5 [] false = (wC5, some eC5) ∧
    fetch_candles_all_time wC5 1 tC5 { value := "1d" } [] false = (wC5, some eC5) ∧
    fetch_liquidity_all_time wC5 1 tC5 { value := "1d" } [] false = (wC5, some eC5) :=
  ⟨by decide,
   (fetch_no_download_on_valid_cache wC5 1 tC5 [] false { value := "1d" }
      eC5 eC5 eC5 eC5).1 (by decide),
   (fetch_no_download_on_valid_cache wC5 1 tC5 [] false { value := "1d" }
      eC5 eC5 eC5 eC5).2.1 (by decide),
   (fetch_no_download_on_valid_cache wC5 1 tC5 [] false { value := "1d" }
      eC5 eC5 eC5 eC5).2.2.1 (by decide),
   (fetch_no_download_on_valid_cache wC5 1 tC5 [] false { value := "1d" }
      eC5 eC5 eC5 eC5).2.2.2 (by decide)⟩

/-- C6: on an EXPIRED or ABSENT cache entry (lookup yields nothing), each
fetcher invokes the download exactly once against the kind-specific
resource path — with the granularity as the `bucket` query parameter for
the two time-series kinds — writes the downloaded body into the cache at
the resolved path, and returns exactly that freshly cached content. -/
theorem fetch_downloads_and_returns_fresh_on_miss (w : World) (now : Int)
    (t : CachedHTTPTransport) (bucket : TimeBucket) (body : List Nat)
    (hper : 0 ≤ t.cache_period) :
    (get_cached_item w now t ("candles-" ++ bucket.value ++ ".parquet") = none →
      (fetch_candles_all_time w now t bucket body false).1.calls =
        w.calls ++ [{ fpath := t.get_cached_file_path ("candles-" ++ bucket.value ++ ".parquet"),
                      url := t.endpoint ++ "/candles-all",
                      params := [("bucket", bucket.value)] }] ∧
      fsLookup (fetch_candles_all_time w now t bucket body false).1.files
          (t.get_cached_file_path ("candles-" ++ bucket.value ++ ".parquet"))
        = some { content := body, mtime := now } ∧
      (fetch_candles_all_time w now t bucket body false).2
        = some { content := body, mtime := now }) ∧
    (get_cached_item w now t ("liquidity-samples-" ++ bucket.value ++ ".parquet") = none →
      (fetch_liquidity_all_time w now t bucket body false).1.calls =
        w.calls ++ [{ fpath := t.get_cached_file_path
                        ("liquidity-samples-" ++ bucket.value ++ ".parquet"),
                      url := t.endpoint ++ "/liquidity-all",
                      params := [("bucket", bucket.value)] }] ∧
      fsLookup (fetch_liquidity_all_time w now t bucket body false).1.files
          (t.get_cached_file_path ("liquidity-samples-" ++ bucket.value ++ ".parquet"))
        = some { content := body, mtime := now } ∧
      (fetch_liquidity_all_time w now t bucket body false).2
        = some { content := body, mtime := now }) ∧
    (get_cached_item w now t "pair-universe.parquet" = none →
      (fetch_pair_universe w now t body false).1.calls =
        w.calls ++ [{ fpath := t.get_cached_file_path "pair-universe.parquet",
                      url := t.endpoint ++ "/pair-universe", params := [] }] ∧
      (fetch_pair_universe w now t body false).2
        = some { content := body, mtime := now }) ∧
    (get_cached_item w now t "exchange-universe.json" = none →
      (fetch_exchange_universe w now t body false).1.calls =
        w.calls ++ [{ fpath := t.get_cached_file_path "exchange-universe.json",
                      url := t.endpoint ++ "/exchange-universe", params := [] }] ∧
      (fetch_exchange_universe w now t body false).2
        = some { content := body, mtime := now }) := by
  refine ⟨fun h => ?_, fun h => ?_, fun h => ?_, fun h => ?_⟩
  · have habs := isAbs_cached_file_path t ("candles-" ++ bucket.value ++ ".parquet")
    have hs := save_response_completed w now t
      (t.get_cached_file_path ("candles-" ++ bucket.value ++ ".parquet"))
      "candles-all" [("bucket", bucket.value)] body
    refine ⟨?_, ?_, ?_⟩
    · have hurl : t.endpoint ++ "/" ++ "candles-all" = t.endpoint ++ "/candles-all" :=
        (String.append_assoc t.endpoint "/" "candles-all").trans rfl
      simp only [fetch_candles_all_time, h]
      rw [hs.1, hurl]
    · simp only [fetch_candles_all_time, h]
      exact hs.2
    · simp only [fetch_candles_all_time, h]
      refine get_cached_item_fresh_fname _ _ _ _ _ hper ?_ rfl
      rw [cached_file_path_of_abs t _ habs]
      exact hs.2
  · have habs := isAbs_cached_file_path t ("liquidity-samples-" ++ bucket.value ++ ".parquet")
    have hs := save_response_completed w now t
      (t.get_cached_file_path ("liquidity-samples-" ++ bucket.value ++ ".parquet"))
      "liquidity-all" [("bucket", bucket.value)] body
    refine ⟨?_, ?_, ?_⟩
    · have hurl : t.endpoint ++ "/" ++ "liquidity-all" = t.endpoint ++ "/liquidity-all" :=
        (String.append_assoc t.endpoint "/" "liquidity-all").trans rfl
      simp only [fetch_liquidity_all_time, h]
      rw [hs.1, hurl]
    · simp only [fetch_liquidity_all_time, h]
      exact hs.2
    · simp only [fetch_liquidity_all_time, h]
      refine get_cached_item_fresh_fname _ _ _ _ _ hper ?_ rfl
      rw [cached_file_path_of_abs t _ habs]
      exact hs.2
  · have hs := save_response_completed w now t
      (t.get_cached_file_path "pair-universe.parquet") "pair-universe" [] body
    refine ⟨?_, ?_⟩
    · have hurl : t.endpoint ++ "/" ++ "pair-universe" = t.endpoint ++ "/pair-universe" :=
        (String.append_assoc t.endpoint "/" "pair-universe").trans rfl
      simp only [fetch_pair_universe, h]
      rw [hs.1, hurl]
    · simp only [fetch_pair_universe, h]
      exact get_cached_item_fresh_fname _ _ _ _ _ hper hs.2 rfl
  · have hs := save_response_completed w now t
      (t.get_cached_file_path "exchange-universe.json") "exchange-universe" [] body
    refine ⟨?_, ?_⟩
    · have hurl : t.endpoint ++ "/" ++ "exchange-universe" = t.endpoint ++ "/exchange-universe" :=
        (String.append_assoc t.endpoint "/" "exchange-universe").trans rfl
      simp only [fetch_exchange_universe, h]
      rw [hs.1, hurl]
    · simp only [fetch_exchange_universe, h]
      exact get_cached_item_fresh_fname _ _ _ _ _ hper hs.2 rfl

/-- Empty world for the C6 witness. -/
def wC6 : World := { files := [], dirs := [], calls := [] }

/-- Transport for the C6 witness, built through `__init__` with the
default cache path and a 3-day (259200-second) period. -/
def tC6 : CachedHTTPTransport := mkCachedHTTPTransport none 259200 none none

/-- C6 witness: on an absent candles entry for bucket `1d`, the fetch
downloads from `candles-all` with the bucket parameter, stores the body at
the resolved path, and returns the fresh entry. -/
theorem fetch_downloads_and_returns_fresh_on_miss_witness :
    (0 : Int) ≤ tC6.cache_period ∧
    get_cached_item wC6 0 tC6 ("candles-" ++ "1d" ++ ".parquet") = none ∧
    ((fetch_candles_all_time wC6 0 tC6 { value := "1d" } [9, 9] false).1.calls =
        [] ++ [{ fpath := tC6.get_cached_file_path ("candles-" ++ "1d" ++ ".parquet"),
                 url := tC6.endpoint ++ "/candles-all",
                 params := [("bucket", "1d")] }] ∧
      fsLookup (fetch_candles_all_time wC6 0 tC6 { value := "1d" } [9, 9] false).1.files
          (tC6.get_cached_file_path ("candles-" ++ "1d" ++ ".parquet"))
        = some { content := [9, 9], mtime := 0 } ∧
      (fetch_candles_all_time wC6 0 tC6 { value := "1d" } [9, 9] false).2
        = some { content := [9, 9], mtime := 0 }) :=
  ⟨by decide, by decide,
   (fetch_downloads_and_returns_fresh_on_miss wC6 0 tC6 { value := "1d" } [9, 9]
      (by decide)).1 (by decide)⟩

/-! ### Claim C7 -/

/-- One step of the spec's composed pipeline: when its condition holds,
narrow the previous step's result with the step's filter and report the
label and the new row count through the print-callback log. -/
def pipeline_step (name : String) (cond : Bool) (f : List DEXPair → List DEXPair)
    (s : List DEXPair × List (String × Nat)) : List DEXPair × List (String × Nat) :=
  if cond then (f s.1, s.2 ++ [(name, (f s.1).length)]) else s

/-- The spec's §4.4 default composed pipeline, transcribed from its
numbered list: the eleven steps in the stated order, each with its
applicability condition (Python truthiness of the controlling parameter)
and its filter. -/
def spec_pipeline_steps (max_trading_pair_fee_bps : Option Int)
    (blacklisted_token_symbols : Option (List String))
    (good_quote_tokes : List String)
    (exchanges : Option (List Exchange))
    (exchange_ids : Option (List Int))
    (pair_ids_in_candles : Option (List Int))
    (chain_id : Option ChainId) :
    List (String × Bool × (List DEXPair → List DEXPair)) :=
  [ (match chain_id with | some c => "Pairs on chain " ++ c.get_slug | none => "",
     chain_id.isSome,
     fun tbl => match chain_id with | some c => filter_for_chain tbl c | none => tbl),
    ("Pairs having a good fee", truthy_int max_trading_pair_fee_bps,
     fun tbl => match max_trading_pair_fee_bps with
       | some m => tbl.filter (fun r => decide (r.fee ≤ m))
       | none => tbl),
    ("Pairs with candle data", truthy_list pair_ids_in_candles,
     fun tbl => match pair_ids_in_candles with
       | some pic => tbl.filter (fun r => pic.contains r.pair_id)
       | none => tbl),
    ("Pairs matching exchange", truthy_list exchanges,
     fun tbl => match exchanges with
       | some ex => filter_for_exchanges tbl ex
       | none => tbl),
    ("Pairs matching exchange", truthy_list exchange_ids,
     fun tbl => match exchange_ids with
       | some ids => filter_for_exchange_ids tbl ids
       | none => tbl),
    ("Pairs that are not stable-stable", true,
     fun tbl => filter_for_stablecoins tbl StablecoinFilteringMode.only_volatile_pairs),
    ("Pairs that are not derivative tokens", true,
     fun tbl => filter_for_derivatives tbl false),
    ("Pairs that are not rebase tokens", true,
     fun tbl => filter_for_rebases tbl false),
    ("Pairs with good quote token", true,
     fun tbl => tbl.filter (fun r => good_quote_tokes.contains r.quote_token_symbol)),
    ("Pairs without blacklisted base token", truthy_list blacklisted_token_symbols,
     fun tbl => match blacklisted_token_symbols with
       | some bl => filter_for_blacklisted_tokens tbl bl
       | none => tbl),
    ("Pairs with clean ASCII token name", true,
     fun tbl => filter_for_nonascii_tokens tbl) ]

/-- Run the spec's pipeline: fold the steps, in order, over the input
table and the initial input-count report. -/
def filter_pairs_spec_order (pairs_df : List DEXPair)
    (max_trading_pair_fee_bps : Option Int)
    (blacklisted_token_symbols : Option (List String))
    (good_quote_tokes : List String)
    (exchanges : Option (List Exchange))
    (exchange_ids : Option (List Int))
    (pair_ids_in_candles : Option (List Int))
    (chain_id : Option ChainId) : List DEXPair × List (String × Nat) :=
  (spec_pipeline_steps max_trading_pair_fee_bps blacklisted_token_symbols good_quote_tokes
      exchanges exchange_ids pair_ids_in_candles chain_id).foldl
    (fun s step => pipeline_step step.1 step.2.1 step.2.2 s)
    (pairs_df, [("Pairs in the input dataset", pairs_df.length)])

/-- C7: for every input table and every combination of the optional
parameters, `filter_pairs_default` coincides — final row set and the full
sequence of reported step counts alike — with the spec's pipeline applied
in its exact stated order: chain, fee, candle-presence, exchange objects,
exchange ids (each if requested), then always non-stablecoin mode,
derivative exclusion, rebase exclusion, quote-token allow-set, blacklist
(if requested), and non-ASCII exclusion, each step re-narrowing the
previous step's result. -/
theorem filter_pairs_default_matches_spec_order (pairs_df : List DEXPair)
    (max_trading_pair_fee_bps : Option Int)
    (blacklisted_token_symbols : Option (List String))
    (good_quote_tokes : List String)
    (exchanges : Option (List Exchange))
    (exchange_ids : Option (List Int))
    (pair_ids_in_candles : Option (List Int))
    (chain_id : Option ChainId) :
    filter_pairs_default pairs_df max_trading_pair_fee_bps blacklisted_token_symbols
        good_quote_tokes exchanges exchange_ids pair_ids_in_candles chain_id =
      filter_pairs_spec_order pairs_df max_trading_pair_fee_bps blacklisted_token_symbols
        good_quote_tokes exchanges exchange_ids pair_ids_in_candles chain_id := by
  cases chain_id <;> cases max_trading_pair_fee_bps <;> cases pair_ids_in_candles <;>
    cases exchanges <;> cases exchange_ids <;> cases blacklisted_token_symbols <;> rfl

/-! ### Claim C8 -/

/-- A volatile pair with a 100-unit (1 BPS-scale) fee. -/
def pairA : DEXPair :=
  { pair_id := 1, chain_id := 1, exchange_id := 1, exchange_slug := "uniswap-v3",
    token0_symbol := "AAA", token1_symbol := "WETH",
    token0_address := "0xaaa1", token1_address := "0xweth",
    base_token_symbol := "AAA", quote_token_symbol := "WETH", fee := 100 }

/-- A volatile pair with a 5000-unit fee. -/
def pairB : DEXPair :=
  { pair_id := 2, chain_id := 1, exchange_id := 1, exchange_slug := "uniswap-v3",
    token0_symbol := "CCC", token1_symbol := "WETH",
    token0_address := "0xccc1", token1_address := "0xweth",
    base_token_symbol := "CCC", quote_token_symbol := "WETH", fee := 5000 }

/-- C8 counterexample: the claim says the by-trading-fee filter keeps
exactly the rows whose fee is ≤ the configured maximum. With fee parameter
1/2 (5000 in the integer unit), `filter_for_trading_fee` removes `pairA`
even though its fee 100 is below the maximum: the function is an equality
filter on a single fee tier, not a ≤ filter. -/
theorem python_int_half_bps : python_int ((1 / 2 : Rat) * 10000) = 5000 := by
  have h0 : ((1 / 2 : Rat) * 10000) = 5000 := by norm_num
  rw [h0]
  simp [python_int]

theorem filter_fee_half_eval :
    filter_for_trading_fee [pairA, pairB] (1 / 2) = Except.ok [pairB] := by
  have hc : (0 : Rat) < 1 / 2 ∧ (1 / 2 : Rat) < 1 := by norm_num
  unfold filter_for_trading_fee
  rw [if_pos hc]
  simp only [python_int_half_bps]
  exact congrArg Except.ok (by decide)

theorem filter_for_trading_fee_drops_below_max :
    pairA.fee ≤ python_int ((1 / 2 : Rat) * 10000) ∧
    filter_for_trading_fee [pairA, pairB] (1 / 2) = Except.ok [pairB] := by
  refine ⟨?_, filter_fee_half_eval⟩
  rw [python_int_half_bps]
  decide

/-- C8 (amended): `filter_for_trading_fee` keeps exactly the rows whose
fee equals the configured fee converted to the integer unit (an equality
filter selecting one fee tier); it is the fee step of
`filter_pairs_default` that keeps exactly the rows with fee ≤ the
configured integer maximum — there a pair whose fee exceeds the maximum is
removed and a pair exactly at the maximum is retained (inclusive
boundary). -/
theorem fee_filters_semantics (pairs : List DEXPair) (fee : Rat)
    (res : List DEXPair) (r : DEXPair) (tbl : List DEXPair) (maxBps : Int) :
    (filter_for_trading_fee pairs fee = Except.ok res →
      (r ∈ res ↔ r ∈ pairs ∧ r.fee = python_int (fee * 10000))) ∧
    (r ∈ fee_step tbl maxBps ↔ r ∈ tbl ∧ r.fee ≤ maxBps) := by
  constructor
  · intro h
    unfold filter_for_trading_fee at h
    by_cases hc : 0 < fee ∧ fee < 1
    · rw [if_pos hc] at h
      simp only [Except.ok.injEq] at h
      subst h
      simp [List.mem_filter]
    · rw [if_neg hc] at h
      simp at h
  · simp [fee_step, List.mem_filter]

/-- C8 witness: the amended semantics evaluated on the two concrete pairs,
for the standalone equality filter at fee 1/2 and for the pipeline fee
step at maximum 5000 (where the boundary row `pairB` is retained). -/
theorem fee_filters_semantics_witness :
    filter_for_trading_fee [pairA, pairB] (1 / 2) = Except.ok [pairB] ∧
    (pairB ∈ [pairB] ↔ pairB ∈ [pairA, pairB] ∧
      pairB.fee = python_int ((1 / 2 : Rat) * 10000)) ∧
    (pairB ∈ fee_step [pairA, pairB] 5000 ↔ pairB ∈ [pairA, pairB] ∧ pairB.fee ≤ 5000) :=
  ⟨filter_fee_half_eval,
   (fee_filters_semantics [pairA, pairB] (1 / 2) [pairB] pairB [pairA, pairB] 5000).1
     filter_fee_half_eval,
   (fee_filters_semantics [pairA, pairB] (1 / 2) [pairB] pairB [pairA, pairB] 5000).2⟩

/-! ### Claim C9 -/

/-- C9: on any fixed input table, the three always-applied exclusion
filters — stablecoin exclusion in only-volatile mode, derivative exclusion
and rebase exclusion — commute: all six application orders produce the
same final row set. -/
theorem exclusion_filters_commute (pairs : List DEXPair) :
    filter_for_stablecoins (filter_for_derivatives (filter_for_rebases pairs false) false)
        StablecoinFilteringMode.only_volatile_pairs =
      filter_for_stablecoins (filter_for_rebases (filter_for_derivatives pairs false) false)
        StablecoinFilteringMode.only_volatile_pairs ∧
    filter_for_stablecoins (filter_for_derivatives (filter_for_rebases pairs false) false)
        StablecoinFilteringMode.only_volatile_pairs =
      filter_for_derivatives
        (filter_for_stablecoins (filter_for_rebases pairs false)
          StablecoinFilteringMode.only_volatile_pairs) false ∧
    filter_for_stablecoins (filter_for_derivatives (filter_for_rebases pairs false) false)
        StablecoinFilteringMode.only_volatile_pairs =
      filter_for_derivatives
        (filter_for_rebases
          (filter_for_stablecoins pairs StablecoinFilteringMode.only_volatile_pairs) false) false ∧
    filter_for_stablecoins (filter_for_derivatives (filter_for_rebases pairs false) false)
        StablecoinFilteringMode.only_volatile_pairs =
      filter_for_rebases
        (filter_for_stablecoins (filter_for_derivatives pairs false)
          StablecoinFilteringMode.only_volatile_pairs) false ∧
    filter_for_stablecoins (filter_for_derivatives (filter_for_rebases pairs false) false)
        StablecoinFilteringMode.only_volatile_pairs =
      filter_for_rebases
        (filter_for_derivatives
          (filter_for_stablecoins pairs StablecoinFilteringMode.only_volatile_pairs) false) false := by
  simp only [filter_for_stablecoins, filter_for_derivatives, filter_for_rebases]
  refine ⟨?_, ?_, ?_, ?_, ?_⟩
  · exact congrArg _ (List.filter_comm _ _ _)
  · exact List.filter_comm _ _ _
  · exact (List.filter_comm _ _ _).trans (congrArg _ (List.filter_comm _ _ _))
  · exact (congrArg _ (List.filter_comm _ _ _)).trans (List.filter_comm _ _ _)
  · exact (List.filter_comm _ _ _).trans
      ((congrArg _ (List.filter_comm _ _ _)).trans (List.filter_comm _ _ _))

/-! ### Claim C10 -/

/-- A volatile pair at the most expensive fee tier, 10000 units. -/
def pairHighFee : DEXPair :=
  { pair_id := 3, chain_id := 1, exchange_id := 1, exchange_slug := "uniswap-v3",
    token0_symbol := "BBB", token1_symbol := "WETH",
    token0_address := "0xbbb1", token1_address := "0xweth",
    base_token_symbol := "BBB", quote_token_symbol := "WETH", fee := 10000 }

/-- C10: passing `max_trading_pair_fee_bps = 0` to `filter_pairs_default`
applies no fee filtering at all — the pipeline behaves exactly as with the
parameter absent, because the step runs only when the maximum is truthy —
and the chain filter is likewise skipped entirely when `chain_id` is
absent. Concretely, with maximum 0 and no chain, pairs of every fee tier
(100 and 10000) remain in the result, and the diagnostic log contains
neither a chain entry nor a fee entry. -/
theorem fee_zero_and_absent_chain_skip_filters :
    (∀ (pairs_df : List DEXPair) (bl : Option (List String)) (gq : List String)
        (ex : Option (List Exchange)) (exid : Option (List Int))
        (pic : Option (List Int)),
      filter_pairs_default pairs_df (some 0) bl gq ex exid pic none =
        filter_pairs_default pairs_df none bl gq ex exid pic none) ∧
    pairA ∈ (filter_pairs_default [pairA, pairHighFee] (some 0) none
        DEFAULT_GOOD_QUOTE_TOKENS none none none none).1 ∧
    pairHighFee ∈ (filter_pairs_default [pairA, pairHighFee] (some 0) none
        DEFAULT_GOOD_QUOTE_TOKENS none none none none).1 ∧
    (filter_pairs_default [pairA, pairHighFee] (some 0) none DEFAULT_GOOD_QUOTE_TOKENS
        none none none none).2 =
      [("Pairs in the input dataset", 2), ("Pairs that are not stable-stable", 2),
       ("Pairs that are not derivative tokens", 2), ("Pairs that are not rebase tokens", 2),
       ("Pairs with good quote token", 2), ("Pairs with clean ASCII token name", 2)] :=
  ⟨fun _ _ _ _ _ _ => rfl, by decide, by decide, by decide⟩
